import Mathlib

/-!
Shallow embedding of the fisheye-tool repository's core
(`src/fisheye/camera.py`, `src/fisheye/schemas.py`, `src/fisheye/projection.py`)
and verification of the specification's claims about it.

Machine floats are modelled as real numbers; numpy's element-wise array
operations are modelled pointwise, per grid index.
-/

open Real

/-- Embeds the `CameraType` enumeration of `src/fisheye/schemas.py`. -/
inductive CameraType where
  | equidistant
  | equisolid
  | orthographic
  | stereographic
  deriving DecidableEq, Repr

/-- Embeds the string value carried by each member of the Python `CameraType`
enum (`CameraType.EQUIDISTANT = "equidistant"`, ...). -/
def CameraType.value : CameraType → String
  | .equidistant => "equidistant"
  | .equisolid => "equisolid"
  | .orthographic => "orthographic"
  | .stereographic => "stereographic"

/-- Embeds the `FisheyeFormat` enumeration values of `src/fisheye/schemas.py`
("circular", "diagonal"); the format tag itself travels as a `String`. -/
def FisheyeFormat.circular : String := "circular"

/-- Embeds the second `FisheyeFormat` enumeration value. -/
def FisheyeFormat.diagonal : String := "diagonal"

/-- Error outcomes of the two `raise ValueError` sites in the repository's
core: the unknown-camera-type branches of `FisheyeCameraFactory`
(`src/fisheye/camera.py` lines 163, 177) and the unknown-format branch of
`FisheyeToPerspective.get_perspective_width` (`src/fisheye/projection.py`
line 46). -/
inductive FisheyeError where
  | unsupportedCameraType
  | unsupportedFormat
  deriving DecidableEq, Repr

/-- Embeds a constructed fisheye camera object: one of the four
`FisheyeCamera` subclasses of `src/fisheye/camera.py`, identified by its
class (`ctype`) together with its `_focal_length` attribute. -/
structure Camera where
  ctype : CameraType
  focal_length : ℝ

/-- Embeds the `theta_to_r` method of each of the four camera classes in
`src/fisheye/camera.py` (lines 52-53, 79-80, 106-107, 133-134), dispatched
by the class of the camera. -/
noncomputable def Camera.theta_to_r (c : Camera) (θ : ℝ) : ℝ :=
  match c.ctype with
  | .equidistant => c.focal_length * θ
  | .equisolid => 2 * c.focal_length * Real.sin (θ / 2)
  | .orthographic => c.focal_length * Real.sin θ
  | .stereographic => 2 * c.focal_length * Real.tan (θ / 2)

/-- Embeds the `r_to_theta` method of each of the four camera classes in
`src/fisheye/camera.py` (lines 55-56, 82-83, 109-110, 136-137). -/
noncomputable def Camera.r_to_theta (c : Camera) (r : ℝ) : ℝ :=
  match c.ctype with
  | .equidistant => r / c.focal_length
  | .equisolid => 2 * Real.arcsin (r / (2 * c.focal_length))
  | .orthographic => Real.arcsin (r / c.focal_length)
  | .stereographic => 2 * Real.arctan (r / (2 * c.focal_length))

/-- Embeds the static `f_from_theta_and_r` method of each of the four camera
classes in `src/fisheye/camera.py` (lines 62-64, 89-91, 116-118, 143-145). -/
noncomputable def CameraType.f_from_theta_and_r (ct : CameraType) (theta_max r_max : ℝ) : ℝ :=
  match ct with
  | .equidistant => r_max / theta_max
  | .equisolid => r_max / (2 * Real.sin (theta_max / 2))
  | .orthographic => r_max / Real.sin theta_max
  | .stereographic => r_max / (2 * Real.tan (theta_max / 2))

/-- Embeds `FisheyeCameraFactory.create_camera` (`src/fisheye/camera.py`
lines 151-163): an if/elif chain over the tag with a `raise ValueError`
fallback for unrecognized tags. The tag universe is the enum's underlying
string values. -/
def FisheyeCameraFactory.create_camera (camera_type : String) (focal_length : ℝ) :
    Except FisheyeError Camera :=
  if camera_type = "equidistant" then .ok ⟨.equidistant, focal_length⟩
  else if camera_type = "equisolid" then .ok ⟨.equisolid, focal_length⟩
  else if camera_type = "orthographic" then .ok ⟨.orthographic, focal_length⟩
  else if camera_type = "stereographic" then .ok ⟨.stereographic, focal_length⟩
  else .error .unsupportedCameraType

/-- Embeds the static `FisheyeCameraFactory.f_from_theta_and_r`
(`src/fisheye/camera.py` lines 165-177): dispatches to the variant's
closed-form focal-length derivation, `raise ValueError` for unknown tags. -/
noncomputable def FisheyeCameraFactory.f_from_theta_and_r (camera_type : String) (θ r : ℝ) :
    Except FisheyeError ℝ :=
  if camera_type = "equidistant" then .ok (CameraType.f_from_theta_and_r .equidistant θ r)
  else if camera_type = "equisolid" then .ok (CameraType.f_from_theta_and_r .equisolid θ r)
  else if camera_type = "orthographic" then .ok (CameraType.f_from_theta_and_r .orthographic θ r)
  else if camera_type = "stereographic" then .ok (CameraType.f_from_theta_and_r .stereographic θ r)
  else .error .unsupportedCameraType

/-- Claim C4: for each of the four camera variants, composing the variant's
focal-length derivation with its forward mapping reproduces the radius
extreme exactly: with `f = f_from_theta_and_r ct theta_max r_max`,
`theta_to_r theta_max = r_max`, for `theta_max` in the valid domain
`(0, π/2)` and `r_max > 0`. -/
theorem f_from_theta_and_r_calibrates (ct : CameraType) (theta_max r_max : ℝ)
    (h0 : 0 < theta_max) (h1 : theta_max < Real.pi / 2) (hr : 0 < r_max) :
    Camera.theta_to_r ⟨ct, CameraType.f_from_theta_and_r ct theta_max r_max⟩ theta_max = r_max := by
  have hpi : Real.pi / 2 < Real.pi := by linarith [Real.pi_pos]
  cases ct with
  | equidistant =>
    simp only [Camera.theta_to_r, CameraType.f_from_theta_and_r]
    field_simp
  | equisolid =>
    have hs : 0 < Real.sin (theta_max / 2) := by
      apply Real.sin_pos_of_pos_of_lt_pi (by linarith)
      linarith [Real.pi_pos]
    simp only [Camera.theta_to_r, CameraType.f_from_theta_and_r]
    field_simp
    ring
  | orthographic =>
    have hs : 0 < Real.sin theta_max := by
      apply Real.sin_pos_of_pos_of_lt_pi h0
      linarith
    simp only [Camera.theta_to_r, CameraType.f_from_theta_and_r]
    field_simp
  | stereographic =>
    have ht : 0 < Real.tan (theta_max / 2) := by
      apply Real.tan_pos_of_pos_of_lt_pi_div_two (by linarith)
      linarith
    simp only [Camera.theta_to_r, CameraType.f_from_theta_and_r]
    field_simp
    ring

/-- Witness for C4: the equisolid variant at `theta_max = 1`, `r_max = 2`. -/
theorem f_from_theta_and_r_calibrates_witness :
    (0 : ℝ) < 1 ∧ (1 : ℝ) < Real.pi / 2 ∧ (0 : ℝ) < 2 ∧
      Camera.theta_to_r ⟨.equisolid, CameraType.f_from_theta_and_r .equisolid 1 2⟩ 1 = 2 := by
  have h1 : (1 : ℝ) < Real.pi / 2 := by linarith [Real.pi_gt_three]
  exact ⟨by norm_num, h1,
    by norm_num, f_from_theta_and_r_calibrates .equisolid 1 2 (by norm_num) h1 (by norm_num)⟩

/-- Valid radius range for each camera variant, following the spec's
"corresponding radius range": nonnegative radii for which the variant's
inverse-trigonometric argument stays in its principal domain (Orthographic
requires `r ≤ f`, Equisolid `r ≤ 2f`; Equidistant and Stereographic accept
every nonnegative radius). -/
def validR : CameraType → ℝ → ℝ → Prop
  | .equidistant, _, r => 0 ≤ r
  | .equisolid, f, r => 0 ≤ r ∧ r ≤ 2 * f
  | .orthographic, f, r => 0 ≤ r ∧ r ≤ f
  | .stereographic, _, r => 0 ≤ r

/-- Claim C5: for every camera variant with positive focal length,
`theta_to_r` and `r_to_theta` are mutually inverse on the variant's valid
domain: `r_to_theta (theta_to_r θ) = θ` for `θ ∈ [0, π/2)`, and
`theta_to_r (r_to_theta r) = r` for `r` in the corresponding radius range. -/
theorem theta_r_roundtrip (ct : CameraType) (f θ r : ℝ) (hf : 0 < f)
    (hθ0 : 0 ≤ θ) (hθ1 : θ < Real.pi / 2) (hr : validR ct f r) :
    Camera.r_to_theta ⟨ct, f⟩ (Camera.theta_to_r ⟨ct, f⟩ θ) = θ ∧
      Camera.theta_to_r ⟨ct, f⟩ (Camera.r_to_theta ⟨ct, f⟩ r) = r := by
  have hfne : f ≠ 0 := ne_of_gt hf
  have h2f : (0 : ℝ) < 2 * f := by linarith
  cases ct with
  | equidistant =>
    simp only [Camera.theta_to_r, Camera.r_to_theta]
    constructor
    · field_simp
    · field_simp
  | equisolid =>
    obtain ⟨hr0, hr1⟩ := hr
    simp only [Camera.theta_to_r, Camera.r_to_theta]
    constructor
    · rw [mul_div_cancel_left₀ _ h2f.ne', Real.arcsin_sin (by linarith [Real.pi_pos]) (by linarith [Real.pi_pos])]
      ring
    · rw [mul_div_cancel_left₀ _ (two_ne_zero (α := ℝ)), Real.sin_arcsin]
      · field_simp
      · have : (0 : ℝ) ≤ r / (2 * f) := div_nonneg hr0 h2f.le
        linarith
      · rw [div_le_one h2f]
        exact hr1
  | orthographic =>
    obtain ⟨hr0, hr1⟩ := hr
    simp only [Camera.theta_to_r, Camera.r_to_theta]
    constructor
    · rw [mul_div_cancel_left₀ _ hfne]
      exact Real.arcsin_sin (by linarith [Real.pi_pos]) (by linarith [Real.pi_pos])
    · rw [Real.sin_arcsin]
      · field_simp
      · have : (0 : ℝ) ≤ r / f := div_nonneg hr0 hf.le
        linarith
      · rw [div_le_one hf]
        exact hr1
  | stereographic =>
    simp only [Camera.theta_to_r, Camera.r_to_theta]
    constructor
    · rw [mul_div_cancel_left₀ _ h2f.ne', Real.arctan_tan (by linarith [Real.pi_pos]) (by linarith [Real.pi_pos])]
      ring
    · rw [mul_div_cancel_left₀ _ (two_ne_zero (α := ℝ)), Real.tan_arctan]
      field_simp

/-- Witness for C5: the orthographic variant with `f = 1`, `θ = 0`, `r = 1`. -/
theorem theta_r_roundtrip_witness :
    (0 : ℝ) < 1 ∧ (0 : ℝ) ≤ 0 ∧ (0 : ℝ) < Real.pi / 2 ∧ validR .orthographic 1 1 ∧
      Camera.r_to_theta ⟨.orthographic, 1⟩ (Camera.theta_to_r ⟨.orthographic, 1⟩ 0) = 0 ∧
      Camera.theta_to_r ⟨.orthographic, 1⟩ (Camera.r_to_theta ⟨.orthographic, 1⟩ 1) = 1 := by
  have hπ : (0 : ℝ) < Real.pi / 2 := by linarith [Real.pi_pos]
  have hv : validR .orthographic 1 1 := by
    simp only [validR]
    norm_num
  exact ⟨by norm_num, le_refl 0, hπ, hv,
    theta_r_roundtrip .orthographic 1 0 1 (by norm_num) (le_refl 0) hπ hv⟩

/-- Claim C9: for every camera variant with positive focal length,
`theta_to_r` is strictly increasing on `[0, π/2)`; additionally, for the
Orthographic variant the forward mapping retraces its values beyond `π/2`
(`sin (π - θ) = sin θ`), so it is injective (valid) only on that interval. -/
theorem theta_to_r_strict_mono (ct : CameraType) (f θ₁ θ₂ : ℝ) (hf : 0 < f)
    (h0 : 0 ≤ θ₁) (h12 : θ₁ < θ₂) (h2 : θ₂ < Real.pi / 2) :
    Camera.theta_to_r ⟨ct, f⟩ θ₁ < Camera.theta_to_r ⟨ct, f⟩ θ₂ ∧
      Camera.theta_to_r ⟨.orthographic, f⟩ (Real.pi - θ₂) =
        Camera.theta_to_r ⟨.orthographic, f⟩ θ₂ := by
  have h2f : (0 : ℝ) < 2 * f := by linarith
  have hsym : Camera.theta_to_r ⟨.orthographic, f⟩ (Real.pi - θ₂) =
      Camera.theta_to_r ⟨.orthographic, f⟩ θ₂ := by
    simp only [Camera.theta_to_r, Real.sin_pi_sub]
  refine ⟨?_, hsym⟩
  have hπ2 : -(Real.pi / 2) ≤ (0 : ℝ) := by linarith [Real.pi_pos]
  cases ct with
  | equidistant =>
    simp only [Camera.theta_to_r]
    exact mul_lt_mul_of_pos_left h12 hf
  | equisolid =>
    simp only [Camera.theta_to_r]
    refine mul_lt_mul_of_pos_left ?_ h2f
    refine Real.strictMonoOn_sin ⟨by linarith, by linarith⟩ ⟨by linarith, by linarith⟩ (by linarith)
  | orthographic =>
    simp only [Camera.theta_to_r]
    refine mul_lt_mul_of_pos_left ?_ hf
    refine Real.strictMonoOn_sin ⟨by linarith, by linarith⟩ ⟨by linarith, by linarith⟩ h12
  | stereographic =>
    simp only [Camera.theta_to_r]
    refine mul_lt_mul_of_pos_left ?_ h2f
    refine Real.strictMonoOn_tan ⟨by linarith [Real.pi_pos], by linarith⟩
      ⟨by linarith [Real.pi_pos], by linarith⟩ (by linarith)

/-- Witness for C9: the stereographic variant with `f = 1`, `θ₁ = 0`, `θ₂ = 1`. -/
theorem theta_to_r_strict_mono_witness :
    (0 : ℝ) < 1 ∧ (0 : ℝ) ≤ 0 ∧ (0 : ℝ) < 1 ∧ (1 : ℝ) < Real.pi / 2 ∧
      Camera.theta_to_r ⟨.stereographic, 1⟩ 0 < Camera.theta_to_r ⟨.stereographic, 1⟩ 1 ∧
      Camera.theta_to_r ⟨.orthographic, 1⟩ (Real.pi - 1) =
        Camera.theta_to_r ⟨.orthographic, 1⟩ 1 := by
  have h2 : (1 : ℝ) < Real.pi / 2 := by linarith [Real.pi_gt_three]
  have h := theta_to_r_strict_mono .stereographic 1 0 1 (by norm_num) (le_refl 0) (by norm_num) h2
  exact ⟨by norm_num, le_refl 0, by norm_num, h2, h.1, h.2⟩

/-- Embeds `np.deg2rad` / `np.radians`: degrees to radians. -/
noncomputable def deg2rad (x : ℝ) : ℝ := x * Real.pi / 180

/-- Embeds the state of a `FisheyeToPerspective` object
(`src/fisheye/projection.py` lines 22-38) after `__init__` has run: the
request parameters together with the cropped image (as a pixel function with
its dimensions) and the stored center coordinates. -/
structure FisheyeToPerspective where
  fov : ℝ
  rfov : ℝ
  perspective_fov : ℝ
  camera_type : String
  format : String
  width : ℕ
  height : ℕ
  x_center : ℕ
  y_center : ℕ
  pixel : ℕ → ℕ → ℝ
  output_shape : Option (ℕ × ℕ)

/-- Embeds `FisheyeToPerspective.__init__` together with the `read_image`
call it performs (`src/fisheye/projection.py` lines 22-38 and 48-64): the
source image of size `h × w` (pixel function `img`, row index first) is
center-cropped to a square of side `min w h`, and the stored dimensions and
centers are taken from the cropped image. File-existence and decode checks
are collaborator-level I/O and are outside this model. -/
noncomputable def FisheyeToPerspective.init (img : ℕ → ℕ → ℝ) (w h : ℕ) (fov pfov : ℝ)
    (camera_type format : String) (output_shape : Option (ℕ × ℕ)) : FisheyeToPerspective :=
  let dim := min w h
  let offset_x := (w - dim) / 2
  let offset_y := (h - dim) / 2
  { fov := fov
    rfov := fov / 2
    perspective_fov := pfov
    camera_type := camera_type
    format := format
    width := dim
    height := dim
    x_center := (dim - 1) / 2
    y_center := (dim - 1) / 2
    pixel := fun i j => img (offset_y + i) (offset_x + j)
    output_shape := output_shape }

/-- Embeds `FisheyeToPerspective.get_perspective_width`
(`src/fisheye/projection.py` lines 40-46). Note that it reads the *stored*
(post-crop) `_width`/`_height` attributes. -/
noncomputable def FisheyeToPerspective.get_perspective_width (self : FisheyeToPerspective) :
    Except FisheyeError ℝ :=
  if self.format = "circular" then .ok (min self.width self.height : ℕ)
  else if self.format = "diagonal" then
    .ok (Real.sqrt ((self.width : ℝ) ^ 2 + (self.height : ℝ) ^ 2))
  else .error .unsupportedFormat

/-- Embeds the static `FisheyeToPerspective.focal_length_from_fov`
(`src/fisheye/projection.py` lines 66-68). -/
noncomputable def focal_length_from_fov (fov width : ℝ) : ℝ :=
  width / (2 * Real.tan (deg2rad fov / 2))

/-- Embeds the per-pixel `distorted_r = np.hypot(x, y)` of
`init_undistort_map` (`src/fisheye/projection.py` line 102), where the grid
from `generate_meshgrid` (lines 70-76) has `x = j - x_center` and
`y = i - y_center` at row `i`, column `j`. -/
noncomputable def FisheyeToPerspective.distorted_r (self : FisheyeToPerspective) (i j : ℕ) : ℝ :=
  Real.sqrt (((j : ℝ) - (self.x_center : ℝ)) ^ 2 + ((i : ℝ) - (self.y_center : ℝ)) ^ 2)

/-- Embeds the pure per-pixel part of `init_undistort_map`
(`src/fisheye/projection.py` lines 101-114) once the camera object exists:
`theta = arctan(distorted_r / pfocal)`, `perspective_r = theta_to_r(theta)`,
and the masked fill `map_x[mask] = perspective_r/distorted_r * x + x_center`
(`map_y` analogously) with zeros where `distorted_r == 0`. -/
noncomputable def FisheyeToPerspective.undistort_pair (self : FisheyeToPerspective)
    (camera : Camera) (pfocal : ℝ) : (ℕ → ℕ → ℝ) × (ℕ → ℕ → ℝ) :=
  (fun i j =>
    let dr := self.distorted_r i j
    if dr = 0 then 0
    else camera.theta_to_r (Real.arctan (dr / pfocal)) / dr * ((j : ℝ) - (self.x_center : ℝ)) +
      (self.x_center : ℝ),
   fun i j =>
    let dr := self.distorted_r i j
    if dr = 0 then 0
    else camera.theta_to_r (Real.arctan (dr / pfocal)) / dr * ((i : ℝ) - (self.y_center : ℝ)) +
      (self.y_center : ℝ))

/-- Embeds `FisheyeToPerspective.init_undistort_map`
(`src/fisheye/projection.py` lines 78-114): derives `focal_fisheye` from the
factory, builds the camera, then fills the per-pixel maps. The two factory
calls are where an unrecognized camera tag raises. -/
noncomputable def FisheyeToPerspective.init_undistort_map (self : FisheyeToPerspective)
    (pfocal dim : ℝ) : Except FisheyeError ((ℕ → ℕ → ℝ) × (ℕ → ℕ → ℝ)) :=
  match FisheyeCameraFactory.f_from_theta_and_r self.camera_type (deg2rad self.rfov) (dim / 2) with
  | .error e => .error e
  | .ok focal_fisheye =>
    match FisheyeCameraFactory.create_camera self.camera_type focal_fisheye with
    | .error e => .error e
    | .ok camera => .ok (self.undistort_pair camera pfocal)

/-- Embeds the map-building part of `FisheyeToPerspective.__call__`
(`src/fisheye/projection.py` lines 116-120): compute `dim`, derive the
perspective focal length from it, and build the undistortion maps. The
subsequent `cv2.resize`/`cv2.remap`/`cv2.imwrite` steps are external
collaborators outside the core. -/
noncomputable def FisheyeToPerspective.call_maps (self : FisheyeToPerspective) :
    Except FisheyeError ((ℕ → ℕ → ℝ) × (ℕ → ℕ → ℝ)) :=
  match self.get_perspective_width with
  | .error e => .error e
  | .ok dim => self.init_undistort_map (focal_length_from_fov self.perspective_fov dim) dim

/-- Shape `(rows, cols)` of the map fields returned by `__call__`
(`src/fisheye/projection.py` lines 121-123): the natural `width × height`
grid of `generate_meshgrid` unless an explicit `output_shape` was requested,
in which case `cv2.resize(map, dsize=(w, h))` produces an `h × w` array. -/
def FisheyeToPerspective.call_shape (self : FisheyeToPerspective) : ℕ × ℕ :=
  match self.output_shape with
  | some s => (s.2, s.1)
  | none => (self.height, self.width)

/-- All-zero test image used to instantiate concrete scenarios. -/
def img0 : ℕ → ℕ → ℝ := fun _ _ => 0

/-- Claim C10: after construction (`read_image`), the stored image is square
with side `D = min(w, h)`, obtained by a centered crop with offsets
`(w - D)/2` and `(h - D)/2`, both stored centers equal `(D - 1)/2`, and with
no requested output shape the built map fields have shape `(D, D)`. -/
theorem read_image_invariant (img : ℕ → ℕ → ℝ) (w h : ℕ) (fov pfov : ℝ)
    (camera_type format : String) (i j : ℕ) (hw : 0 < w) (hh : 0 < h) :
    (FisheyeToPerspective.init img w h fov pfov camera_type format none).width = min w h ∧
      (FisheyeToPerspective.init img w h fov pfov camera_type format none).height = min w h ∧
      (FisheyeToPerspective.init img w h fov pfov camera_type format none).x_center =
        (min w h - 1) / 2 ∧
      (FisheyeToPerspective.init img w h fov pfov camera_type format none).y_center =
        (min w h - 1) / 2 ∧
      (FisheyeToPerspective.init img w h fov pfov camera_type format none).pixel i j =
        img ((h - min w h) / 2 + i) ((w - min w h) / 2 + j) ∧
      (FisheyeToPerspective.init img w h fov pfov camera_type format none).call_shape =
        (min w h, min w h) := by
  exact ⟨rfl, rfl, rfl, rfl, rfl, rfl⟩

/-- Witness for C10 at a concrete 640×480 source. -/
theorem read_image_invariant_witness :
    0 < 640 ∧ 0 < 480 ∧
      ((FisheyeToPerspective.init img0 640 480 180 90 "equidistant" "circular" none).width =
          min 640 480 ∧
        (FisheyeToPerspective.init img0 640 480 180 90 "equidistant" "circular" none).height =
          min 640 480 ∧
        (FisheyeToPerspective.init img0 640 480 180 90 "equidistant" "circular" none).x_center =
          (min 640 480 - 1) / 2 ∧
        (FisheyeToPerspective.init img0 640 480 180 90 "equidistant" "circular" none).y_center =
          (min 640 480 - 1) / 2 ∧
        (FisheyeToPerspective.init img0 640 480 180 90 "equidistant" "circular" none).pixel 0 0 =
          img0 ((480 - min 640 480) / 2 + 0) ((640 - min 640 480) / 2 + 0) ∧
        (FisheyeToPerspective.init img0 640 480 180 90 "equidistant" "circular" none).call_shape =
          (min 640 480, min 640 480)) :=
  ⟨by decide, by decide,
    read_image_invariant img0 640 480 180 90 "equidistant" "circular" 0 0 (by decide) (by decide)⟩

/-- Claim C6: at every grid point where `distorted_r = 0`, the built map has
`map_x = 0` and `map_y = 0`, for every camera (any type, any focal length)
and any perspective focal; the zero fill is the defined default and the
guarded branch never divides by the zero radius. -/
theorem center_zero_fill (self : FisheyeToPerspective) (camera : Camera) (pfocal : ℝ)
    (i j : ℕ) (h : self.distorted_r i j = 0) :
    (self.undistort_pair camera pfocal).1 i j = 0 ∧
      (self.undistort_pair camera pfocal).2 i j = 0 := by
  constructor <;> simp [FisheyeToPerspective.undistort_pair, h]

/-- Witness for C6: the exact center pixel `(1,1)` of a 3×3 grid. -/
theorem center_zero_fill_witness :
    (FisheyeToPerspective.init img0 3 3 180 90 "equidistant" "circular" none).distorted_r 1 1
        = 0 ∧
      ((FisheyeToPerspective.init img0 3 3 180 90 "equidistant" "circular" none).undistort_pair
          ⟨.equidistant, 1⟩ 1).1 1 1 = 0 ∧
      ((FisheyeToPerspective.init img0 3 3 180 90 "equidistant" "circular" none).undistort_pair
          ⟨.equidistant, 1⟩ 1).2 1 1 = 0 := by
  have h : (FisheyeToPerspective.init img0 3 3 180 90 "equidistant" "circular" none).distorted_r
      1 1 = 0 := by
    norm_num [FisheyeToPerspective.distorted_r, FisheyeToPerspective.init]
  have hc := center_zero_fill
    (FisheyeToPerspective.init img0 3 3 180 90 "equidistant" "circular" none)
    ⟨.equidistant, 1⟩ 1 1 1 h
  exact ⟨h, hc.1, hc.2⟩

/-- Claim C8: every camera tag outside the four recognized values makes both
factory operations fail with `unsupportedCameraType`, and every format tag
outside {"circular", "diagonal"} makes the perspective-width computation
fail with `unsupportedFormat`; in either case `__call__` produces no map. -/
theorem unknown_tag_errors (tag fmt : String) (f θ r fov pfov : ℝ)
    (img : ℕ → ℕ → ℝ) (w h : ℕ) (oshape : Option (ℕ × ℕ))
    (htag : tag ≠ "equidistant" ∧ tag ≠ "equisolid" ∧ tag ≠ "orthographic" ∧
      tag ≠ "stereographic")
    (hfmt : fmt ≠ "circular" ∧ fmt ≠ "diagonal") :
    FisheyeCameraFactory.create_camera tag f = .error .unsupportedCameraType ∧
      FisheyeCameraFactory.f_from_theta_and_r tag θ r = .error .unsupportedCameraType ∧
      (FisheyeToPerspective.init img w h fov pfov tag fmt oshape).get_perspective_width =
        .error .unsupportedFormat ∧
      (FisheyeToPerspective.init img w h fov pfov tag fmt oshape).call_maps =
        .error .unsupportedFormat ∧
      (FisheyeToPerspective.init img w h fov pfov tag "circular" oshape).call_maps =
        .error .unsupportedCameraType := by
  obtain ⟨ht1, ht2, ht3, ht4⟩ := htag
  obtain ⟨hf1, hf2⟩ := hfmt
  refine ⟨?_, ?_, ?_, ?_, ?_⟩
  · simp [FisheyeCameraFactory.create_camera, ht1, ht2, ht3, ht4]
  · simp [FisheyeCameraFactory.f_from_theta_and_r, ht1, ht2, ht3, ht4]
  · simp [FisheyeToPerspective.get_perspective_width, FisheyeToPerspective.init, hf1, hf2]
  · simp [FisheyeToPerspective.call_maps, FisheyeToPerspective.get_perspective_width,
      FisheyeToPerspective.init, hf1, hf2]
  · simp [FisheyeToPerspective.call_maps, FisheyeToPerspective.get_perspective_width,
      FisheyeToPerspective.init, FisheyeToPerspective.init_undistort_map,
      FisheyeCameraFactory.f_from_theta_and_r, ht1, ht2, ht3, ht4]

/-- Witness for C8 at the concrete unknown tags "pinhole" and "fullframe". -/
theorem unknown_tag_errors_witness :
    ("pinhole" ≠ "equidistant" ∧ "pinhole" ≠ "equisolid" ∧ "pinhole" ≠ "orthographic" ∧
        "pinhole" ≠ "stereographic") ∧
      ("fullframe" ≠ "circular" ∧ "fullframe" ≠ "diagonal") ∧
      (FisheyeCameraFactory.create_camera "pinhole" 1 = .error .unsupportedCameraType ∧
        FisheyeCameraFactory.f_from_theta_and_r "pinhole" 1 1 = .error .unsupportedCameraType ∧
        (FisheyeToPerspective.init img0 10 10 180 90 "pinhole" "fullframe" none).get_perspective_width =
          .error .unsupportedFormat ∧
        (FisheyeToPerspective.init img0 10 10 180 90 "pinhole" "fullframe" none).call_maps =
          .error .unsupportedFormat ∧
        (FisheyeToPerspective.init img0 10 10 180 90 "pinhole" "circular" none).call_maps =
          .error .unsupportedCameraType) :=
  ⟨by decide, by decide,
    unknown_tag_errors "pinhole" "fullframe" 1 1 1 180 90 img0 10 10 none
      (by decide) (by decide)⟩

/-- Helper: the diagonal of a square of nonnegative side `a` is `√2 · a`. -/
theorem sqrt_sq_add_sq_self (a : ℝ) (ha : 0 ≤ a) :
    Real.sqrt (a ^ 2 + a ^ 2) = Real.sqrt 2 * a := by
  rw [show a ^ 2 + a ^ 2 = 2 * a ^ 2 by ring, Real.sqrt_mul (by norm_num), Real.sqrt_sq ha]

/-- Counterexample to claim C1: for a 640×480 pre-crop source with Diagonal
format, the code computes `dim = √(480² + 480²) = 480·√2` on the post-crop
square, which is not the claimed `√(640² + 480²) = 800`. -/
theorem diagonal_dim_cx :
    (FisheyeToPerspective.init img0 640 480 180 90 "equidistant" "diagonal"
        none).get_perspective_width = .ok (Real.sqrt 2 * 480) ∧
      Real.sqrt 2 * 480 ≠ (800 : ℝ) := by
  constructor
  · simp only [FisheyeToPerspective.get_perspective_width, FisheyeToPerspective.init]
    rw [if_neg (by decide), if_pos trivial]
    refine congrArg Except.ok ?_
    have hc : ((min 640 480 : ℕ) : ℝ) = 480 := by norm_num
    rw [hc]
    exact sqrt_sq_add_sq_self 480 (by norm_num)
  · intro hcontra
    have hs : Real.sqrt 2 = 800 / 480 := by linarith
    have hsq : Real.sqrt 2 ^ 2 = 2 := Real.sq_sqrt (by norm_num)
    rw [hs] at hsq
    norm_num at hsq

/-- Claim C1 (amended): `get_perspective_width` reads the stored post-crop
dimensions, so for Diagonal format `dim = √(D² + D²) = √2 · D` with
`D = min(w, h)` the post-crop square side, and `__call__` propagates exactly
that `dim` into the perspective focal length and the map builder (for
640×480 this gives `480·√2 ≈ 678.8`, not 800). -/
theorem diagonal_dim_post_crop (img : ℕ → ℕ → ℝ) (w h : ℕ) (fov pfov : ℝ)
    (camera_type : String) (oshape : Option (ℕ × ℕ)) :
    (FisheyeToPerspective.init img w h fov pfov camera_type "diagonal"
        oshape).get_perspective_width = .ok (Real.sqrt 2 * (min w h : ℕ)) ∧
      (FisheyeToPerspective.init img w h fov pfov camera_type "diagonal" oshape).call_maps =
        (FisheyeToPerspective.init img w h fov pfov camera_type "diagonal"
            oshape).init_undistort_map
          (focal_length_from_fov pfov (Real.sqrt 2 * (min w h : ℕ)))
          (Real.sqrt 2 * (min w h : ℕ)) := by
  have hgw : (FisheyeToPerspective.init img w h fov pfov camera_type "diagonal"
      oshape).get_perspective_width = .ok (Real.sqrt 2 * (min w h : ℕ)) := by
    simp only [FisheyeToPerspective.get_perspective_width, FisheyeToPerspective.init]
    rw [if_neg (by decide), if_pos trivial]
    exact congrArg Except.ok (sqrt_sq_add_sq_self _ (Nat.cast_nonneg _))
  refine ⟨hgw, ?_⟩
  simp only [FisheyeToPerspective.call_maps]
  rw [hgw]
  simp only [FisheyeToPerspective.init]

/-- Claim C2: for every grid pixel with nonzero `distorted_r`, composing the
pipeline (`__call__`'s perspective focal length, the factory's fisheye focal
length and camera construction, and `init_undistort_map`) gives
`map_x = theta_to_r(arctan(distorted_r / perspective_focal)) / distorted_r · x + x_center`
(and `map_y` analogously), with
`perspective_focal = dim / (2 · tan(radians(perspective_fov) / 2))` and the
fisheye focal length `f_from_theta_and_r ct (radians(fov/2)) (dim/2)`. -/
theorem undistort_map_formula (self : FisheyeToPerspective) (ct : CameraType) (dim : ℝ)
    (i j : ℕ) (hct : self.camera_type = ct.value) (hdr : self.distorted_r i j ≠ 0) :
    self.init_undistort_map (focal_length_from_fov self.perspective_fov dim) dim =
      .ok (self.undistort_pair
        ⟨ct, CameraType.f_from_theta_and_r ct (deg2rad self.rfov) (dim / 2)⟩
        (focal_length_from_fov self.perspective_fov dim)) ∧
      (self.undistort_pair ⟨ct, CameraType.f_from_theta_and_r ct (deg2rad self.rfov) (dim / 2)⟩
          (focal_length_from_fov self.perspective_fov dim)).1 i j =
        Camera.theta_to_r ⟨ct, CameraType.f_from_theta_and_r ct (deg2rad self.rfov) (dim / 2)⟩
            (Real.arctan (self.distorted_r i j /
              (dim / (2 * Real.tan (deg2rad self.perspective_fov / 2))))) /
            self.distorted_r i j * ((j : ℝ) - (self.x_center : ℝ)) + (self.x_center : ℝ) ∧
      (self.undistort_pair ⟨ct, CameraType.f_from_theta_and_r ct (deg2rad self.rfov) (dim / 2)⟩
          (focal_length_from_fov self.perspective_fov dim)).2 i j =
        Camera.theta_to_r ⟨ct, CameraType.f_from_theta_and_r ct (deg2rad self.rfov) (dim / 2)⟩
            (Real.arctan (self.distorted_r i j /
              (dim / (2 * Real.tan (deg2rad self.perspective_fov / 2))))) /
            self.distorted_r i j * ((i : ℝ) - (self.y_center : ℝ)) + (self.y_center : ℝ) := by
  refine ⟨?_, ?_, ?_⟩
  · simp only [FisheyeToPerspective.init_undistort_map, hct]
    cases ct <;> simp [FisheyeCameraFactory.f_from_theta_and_r,
      FisheyeCameraFactory.create_camera, CameraType.value]
  · simp only [FisheyeToPerspective.undistort_pair]
    rw [if_neg hdr]
    simp only [focal_length_from_fov]
  · simp only [FisheyeToPerspective.undistort_pair]
    rw [if_neg hdr]
    simp only [focal_length_from_fov]

/-- Scenario of spec §8 end-to-end test 1: a 512×512 square source,
`fov = 180`, `perspective_fov = 90`, Equidistant camera, Circular format,
no requested output shape. -/
noncomputable def scenario1 : FisheyeToPerspective :=
  FisheyeToPerspective.init img0 512 512 180 90 "equidistant" "circular" none

/-- Witness for C2: scenario 1 at the corner pixel `(0, 0)` with `dim = 512`. -/
theorem undistort_map_formula_witness :
    scenario1.camera_type = CameraType.equidistant.value ∧
      scenario1.distorted_r 0 0 ≠ 0 ∧
      (scenario1.init_undistort_map (focal_length_from_fov scenario1.perspective_fov 512) 512 =
        .ok (scenario1.undistort_pair
          ⟨.equidistant,
            CameraType.f_from_theta_and_r .equidistant (deg2rad scenario1.rfov) (512 / 2)⟩
          (focal_length_from_fov scenario1.perspective_fov 512)) ∧
      (scenario1.undistort_pair
          ⟨.equidistant,
            CameraType.f_from_theta_and_r .equidistant (deg2rad scenario1.rfov) (512 / 2)⟩
          (focal_length_from_fov scenario1.perspective_fov 512)).1 0 0 =
        Camera.theta_to_r
            ⟨.equidistant,
              CameraType.f_from_theta_and_r .equidistant (deg2rad scenario1.rfov) (512 / 2)⟩
            (Real.arctan (scenario1.distorted_r 0 0 /
              (512 / (2 * Real.tan (deg2rad scenario1.perspective_fov / 2))))) /
            scenario1.distorted_r 0 0 * ((0 : ℝ) - (scenario1.x_center : ℝ)) +
          (scenario1.x_center : ℝ) ∧
      (scenario1.undistort_pair
          ⟨.equidistant,
            CameraType.f_from_theta_and_r .equidistant (deg2rad scenario1.rfov) (512 / 2)⟩
          (focal_length_from_fov scenario1.perspective_fov 512)).2 0 0 =
        Camera.theta_to_r
            ⟨.equidistant,
              CameraType.f_from_theta_and_r .equidistant (deg2rad scenario1.rfov) (512 / 2)⟩
            (Real.arctan (scenario1.distorted_r 0 0 /
              (512 / (2 * Real.tan (deg2rad scenario1.perspective_fov / 2))))) /
            scenario1.distorted_r 0 0 * ((0 : ℝ) - (scenario1.y_center : ℝ)) +
          (scenario1.y_center : ℝ)) := by
  have hct : scenario1.camera_type = CameraType.equidistant.value := rfl
  have hdr : scenario1.distorted_r 0 0 ≠ 0 := by
    norm_num [scenario1, FisheyeToPerspective.distorted_r, FisheyeToPerspective.init,
      Real.sqrt_ne_zero']
  have h := undistort_map_formula scenario1 .equidistant 512 0 0 hct hdr
  exact ⟨hct, hdr, by exact_mod_cast h⟩

/-- Helper: for a recognized camera tag and Circular format, `__call__`
always reaches the map-building step and returns the per-pixel maps built
from `dim = min(w, h)`. -/
theorem call_maps_circular (img : ℕ → ℕ → ℝ) (w h : ℕ) (fov pfov : ℝ) (ct : CameraType)
    (oshape : Option (ℕ × ℕ)) :
    (FisheyeToPerspective.init img w h fov pfov ct.value "circular" oshape).call_maps =
      .ok ((FisheyeToPerspective.init img w h fov pfov ct.value "circular" oshape).undistort_pair
        ⟨ct, CameraType.f_from_theta_and_r ct (deg2rad (fov / 2)) (((min w h : ℕ) : ℝ) / 2)⟩
        (focal_length_from_fov pfov ((min w h : ℕ) : ℝ))) := by
  have hgw : (FisheyeToPerspective.init img w h fov pfov ct.value "circular"
      oshape).get_perspective_width = .ok ((min w h : ℕ) : ℝ) := by
    simp only [FisheyeToPerspective.get_perspective_width, FisheyeToPerspective.init]
    rw [if_pos trivial, min_self]
  simp only [FisheyeToPerspective.call_maps]
  rw [hgw]
  simp only [FisheyeToPerspective.init_undistort_map, FisheyeToPerspective.init]
  cases ct <;> simp [FisheyeCameraFactory.f_from_theta_and_r,
    FisheyeCameraFactory.create_camera, CameraType.value]

/-- Scenario of spec §8 end-to-end test 3: `camera_type = Orthographic`,
`fov = 200` (half-fov 100° beyond 90°), on a 512×512 Circular source. -/
noncomputable def scenario3 : FisheyeToPerspective :=
  FisheyeToPerspective.init img0 512 512 200 90 "orthographic" "circular" none

/-- Counterexample to claim C3: the code validates nothing. Constructing a
camera with `focal_length = -1` succeeds (no `InvalidParameter` failure
exists in the code), and the Orthographic `fov = 200` request of spec
scenario 3 produces its maps instead of failing before map construction. -/
theorem no_validation_cx :
    FisheyeCameraFactory.create_camera "equidistant" (-1) =
        .ok ⟨CameraType.equidistant, -1⟩ ∧
      scenario3.call_maps = .ok (scenario3.undistort_pair
        ⟨.orthographic, CameraType.f_from_theta_and_r .orthographic (deg2rad (200 / 2))
          (((min 512 512 : ℕ) : ℝ) / 2)⟩
        (focal_length_from_fov 90 ((min 512 512 : ℕ) : ℝ))) := by
  constructor
  · simp [FisheyeCameraFactory.create_camera]
  · exact call_maps_circular img0 512 512 200 90 .orthographic none

/-- Claim C3 (amended): domain violations are not surfaced at all. The
factory accepts every focal length, non-positive included, and a request
whose field-of-view puts theta outside the variant's trigonometric domain
(Orthographic with `fov = 200` included) still produces a map: no
`InvalidParameter`-style failure exists anywhere in the core, whose only
failure modes are the unknown-tag errors. -/
theorem no_validation (f fov pfov : ℝ) (ct : CameraType) (img : ℕ → ℕ → ℝ) (w h : ℕ)
    (oshape : Option (ℕ × ℕ)) :
    FisheyeCameraFactory.create_camera ct.value f = .ok ⟨ct, f⟩ ∧
      (FisheyeToPerspective.init img w h fov pfov ct.value "circular" oshape).call_maps =
        .ok ((FisheyeToPerspective.init img w h fov pfov ct.value "circular"
            oshape).undistort_pair
          ⟨ct, CameraType.f_from_theta_and_r ct (deg2rad (fov / 2)) (((min w h : ℕ) : ℝ) / 2)⟩
          (focal_length_from_fov pfov ((min w h : ℕ) : ℝ))) := by
  refine ⟨?_, call_maps_circular img w h fov pfov ct oshape⟩
  cases ct <;> simp [FisheyeCameraFactory.create_camera, CameraType.value]

/-- Maps produced by `__call__` in scenario 1 (Equidistant, Circular,
512×512, `fov = 180`, `perspective_fov = 90`). -/
noncomputable def scenario1_maps : (ℕ → ℕ → ℝ) × (ℕ → ℕ → ℝ) :=
  scenario1.undistort_pair
    ⟨.equidistant, CameraType.f_from_theta_and_r .equidistant (deg2rad (180 / 2))
      (((min 512 512 : ℕ) : ℝ) / 2)⟩
    (focal_length_from_fov 90 ((min 512 512 : ℕ) : ℝ))

/-- Counterexample to claim C7: in scenario 1 the produced map's value at
the center pixel `(255, 255)` is `(0, 0)` — the zero-fill default in
absolute source coordinates — and not the claimed source coordinates
`(255, 255)`. -/
theorem scenario1_center_cx :
    scenario1.call_maps = .ok scenario1_maps ∧
      scenario1_maps.1 255 255 = 0 ∧ scenario1_maps.2 255 255 = 0 ∧ (0 : ℝ) ≠ 255 := by
  have hdr0 : scenario1.distorted_r 255 255 = 0 := by
    norm_num [scenario1, FisheyeToPerspective.distorted_r, FisheyeToPerspective.init]
  refine ⟨call_maps_circular img0 512 512 180 90 .equidistant none, ?_, ?_, by norm_num⟩
  · simp [scenario1_maps, FisheyeToPerspective.undistort_pair, hdr0]
  · simp [scenario1_maps, FisheyeToPerspective.undistort_pair, hdr0]

/-- Claim C7 (amended): in scenario 1 the produced map has shape 512×512;
the center pixel's map value is `(0, 0)` (the documented zero-fill
degenerate default, i.e. offset `(-255, -255)` from the image center, not
`(255, 255)`); and the corner pixels' `distorted_r` values are well-defined
nonnegative reals (`255·√2` and `256·√2` on the main diagonal). -/
theorem scenario1_props :
    scenario1.width = 512 ∧ scenario1.height = 512 ∧
      scenario1.call_shape = (512, 512) ∧
      scenario1.call_maps = .ok scenario1_maps ∧
      scenario1_maps.1 255 255 = 0 ∧ scenario1_maps.2 255 255 = 0 ∧
      scenario1.distorted_r 0 0 = Real.sqrt 2 * 255 ∧
      scenario1.distorted_r 511 511 = Real.sqrt 2 * 256 ∧
      0 ≤ scenario1.distorted_r 0 511 ∧ 0 ≤ scenario1.distorted_r 511 0 := by
  have hdr0 : scenario1.distorted_r 255 255 = 0 := by
    norm_num [scenario1, FisheyeToPerspective.distorted_r, FisheyeToPerspective.init]
  refine ⟨rfl, rfl, rfl, call_maps_circular img0 512 512 180 90 .equidistant none, ?_, ?_,
    ?_, ?_, ?_, ?_⟩
  · simp [scenario1_maps, FisheyeToPerspective.undistort_pair, hdr0]
  · simp [scenario1_maps, FisheyeToPerspective.undistort_pair, hdr0]
  · have h : scenario1.distorted_r 0 0 = Real.sqrt ((255 : ℝ) ^ 2 + (255 : ℝ) ^ 2) := by
      norm_num [scenario1, FisheyeToPerspective.distorted_r, FisheyeToPerspective.init]
    rw [h]
    exact sqrt_sq_add_sq_self 255 (by norm_num)
  · have h : scenario1.distorted_r 511 511 = Real.sqrt ((256 : ℝ) ^ 2 + (256 : ℝ) ^ 2) := by
      norm_num [scenario1, FisheyeToPerspective.distorted_r, FisheyeToPerspective.init]
    rw [h]
    exact sqrt_sq_add_sq_self 256 (by norm_num)
  · exact Real.sqrt_nonneg _
  · exact Real.sqrt_nonneg _
